import Mathlib

/-!
Verification development for the MarketPulse data pipeline
(src/data_processor.py, src/data_loader.py, src/analytics.py).

Numeric cell values are embedded as rationals (`ℚ`); pandas/numpy float
arithmetic on the guarded code paths never divides by zero, so exact
rational arithmetic coincides with it on every branch the code takes.
Calendar dates are embedded as day serials (`Nat`, days since 1970-01-01,
which was a Thursday).  External pandas parsing routines (`pd.to_datetime`,
`pd.to_numeric` on strings, `pd.read_csv`, `dt.isocalendar`) are library
calls, not repository code; they are abstracted as explicit function
parameters so every definition stays executable.
-/

namespace MarketPulse

/-- ASCII lower-casing of one character. -/
def lowerChar (c : Char) : Char :=
  if 65 ≤ c.toNat ∧ c.toNat ≤ 90 then Char.ofNat (c.toNat + 32) else c

/-- ASCII lower-casing, the embedding of Python `.lower()` /
pandas `.str.lower()` on the ASCII column and file names this pipeline
handles. -/
def lowerStr (s : String) : String :=
  String.mk (s.toList.map lowerChar)

/-- Substring containment test, the embedding of the Python
`needle in hay` test on strings. -/
def containsSubstr (needle hay : String) : Bool :=
  decide (needle.toList <:+: hay.toList)

/-- Suffix test, the embedding of Python `str.endswith`. -/
def strEndsWith (s post : String) : Bool :=
  decide (post.toList <:+ s.toList)

/-- Column-name normalization of `data_processor.py` lines 18/53:
`.str.lower().str.replace(' ', '_')`. -/
def normalizeCol (s : String) : String :=
  String.mk ((lowerStr s).toList.map fun c => if c = ' ' then '_' else c)

/-- Lexicographic less-or-equal on character lists. -/
def charListLe : List Char → List Char → Bool
  | [], _ => true
  | _ :: _, [] => false
  | a :: as, b :: bs =>
    if a < b then true else if b < a then false else charListLe as bs

/-- Lexicographic string order, the order in which pandas sorts string
keys. -/
def strLe (a b : String) : Prop := charListLe a.toList b.toList = true

instance : DecidableRel strLe := fun a b =>
  inferInstanceAs (Decidable (charListLe a.toList b.toList = true))

/-! ### Metric derivation (`create_derived_metrics`, data_processor.py 93-110)

The four guarded ratio computations `np.where(denom > 0, quotient, 0)`.
They are shared verbatim with `calculate_channel_performance`
(analytics.py 24-46), which repeats the same formulas. -/

/-- `np.where(impressions > 0, clicks / impressions, 0)`. -/
def deriveCtr (impressions clicks : ℚ) : ℚ :=
  if 0 < impressions then clicks / impressions else 0

/-- `np.where(clicks > 0, spend / clicks, 0)`. -/
def deriveCpc (clicks spend : ℚ) : ℚ :=
  if 0 < clicks then spend / clicks else 0

/-- `np.where(spend > 0, revenue / spend, 0)`. -/
def deriveRoas (spend revenue : ℚ) : ℚ :=
  if 0 < spend then revenue / spend else 0

/-- `np.where(impressions > 0, (spend / impressions) * 1000, 0)`. -/
def deriveCpm (impressions spend : ℚ) : ℚ :=
  if 0 < impressions then spend / impressions * 1000 else 0

/-- A combined-marketing row before metric derivation: the output schema of
`combine_marketing_data` (date, channel, and the four required numeric
columns). -/
structure MRow where
  date : Nat
  channel : String
  impressions : ℚ
  clicks : ℚ
  spend : ℚ
  revenue : ℚ
deriving DecidableEq

/-- A marketing row after `create_derived_metrics`: the same columns plus
ctr/cpc/roas/cpm. -/
structure MRowM extends MRow where
  ctr : ℚ
  cpc : ℚ
  roas : ℚ
  cpm : ℚ
deriving DecidableEq

/-- Row-wise action of `create_derived_metrics` (data_processor.py 93-110):
copies the row and adds the four guarded ratios. -/
def create_derived_metrics_row (r : MRow) : MRowM :=
  { toMRow := r
    ctr := deriveCtr r.impressions r.clicks
    cpc := deriveCpc r.clicks r.spend
    roas := deriveRoas r.spend r.revenue
    cpm := deriveCpm r.impressions r.spend }

/-- `create_derived_metrics` over a whole table: `np.where` acts
element-wise, so the frame-level function is the row-wise map. -/
def create_derived_metrics (df : List MRow) : List MRowM :=
  df.map create_derived_metrics_row

/-! ### Raw tables with untyped cells (for the cleaners and the loader) -/

/-- One cell of a raw pandas frame: a number, a string, a parsed calendar
date (day serial), or a missing value (NaN/NaT). -/
inductive Cell where
  | num (q : ℚ)
  | str (s : String)
  | date (d : Nat)
  | na
deriving DecidableEq

/-- A raw frame: column labels plus rows of cells, each row aligned with
`cols` positionally. -/
structure DF where
  cols : List String
  rows : List (List Cell)
deriving DecidableEq

/-- The numeric-coercion-and-fill step of the cleaners
(data_processor.py 34/66): `pd.to_numeric(col, errors='coerce').fillna(0)`.
`parseNum` stands for the external pandas string-to-number parser; values
that fail coercion become NaN and are then filled with 0. -/
def coerceNumeric (parseNum : String → Option ℚ) : Cell → ℚ
  | .num q => q
  | .str s => match parseNum s with
    | some q => q
    | none => 0
  | .date _ => 0
  | .na => 0

/-! ### Cleaners (`clean_marketing_data` / `clean_business_data`,
data_processor.py 13-71) -/

/-- The error value with which a cleaner aborts.  The code only ever
raises the generic pandas `KeyError` (from `dropna(subset=['date'])` on a
frame with no `date` column); `noDateColumn` is the dedicated error the
specification posits, included so the spec claim can be stated. -/
inductive CleanError where
  | keyError (col : String)
  | noDateColumn
deriving DecidableEq

/-- Transform in a row every cell sitting under a column label satisfying
`p` (label-addressed column assignment, e.g. `df_clean[date_col] = ...`). -/
def mapCellsUnder (p : String → Bool) (f : Cell → Cell) (cols : List String)
    (row : List Cell) : List Cell :=
  List.zipWith (fun cn c => if p cn then f c else c) cols row

/-- `pd.to_datetime(col, errors='coerce')` on one cell: `parseDate` is the
external pandas date parser; failures become missing (NaT). -/
def toDatetimeCoerce (parseDate : Cell → Option Nat) (c : Cell) : Cell :=
  match parseDate c with
  | some d => Cell.date d
  | none => Cell.na

/-- `df_clean.dropna(subset=['date'])` (data_processor.py 44/69): raises
`KeyError` when no column is labelled `date`, otherwise drops every row
whose `date` cell is missing. -/
def dropnaDate (cols : List String) (rows : List (List Cell)) :
    Except CleanError DF :=
  if "date" ∈ cols then
    Except.ok ⟨cols, rows.filter fun row =>
      decide (∀ p ∈ List.zip cols row, p.1 = "date" → p.2 ≠ Cell.na)⟩
  else
    Except.error (CleanError.keyError "date")

/-- Numeric columns coerced by `clean_marketing_data`
(data_processor.py 31). -/
def marketingNumericCols : List String :=
  ["impressions", "impression", "clicks", "spend", "attributed_revenue"]

/-- Numeric columns coerced by `clean_business_data`
(data_processor.py 63). -/
def businessNumericCols : List String :=
  ["orders", "new_orders", "new_customers", "total_revenue", "gross_profit",
   "cogs"]

/-- Column rename of `clean_marketing_data` line 37-41:
`impression` becomes `impressions`, `attributed_revenue` becomes
`revenue`. -/
def marketingRename (c : String) : String :=
  if c = "impression" then "impressions"
  else if c = "attributed_revenue" then "revenue"
  else c

/-- `clean_marketing_data` (data_processor.py 13-46), step for step:
normalize column names; find columns containing `date`; if any, parse the
first one as dates and rename it to `date`; append the `channel` column;
coerce the known numeric columns with 0-fill; apply the convergence
renames; finally `dropna(subset=['date'])`, which raises `KeyError` when
no `date` column exists. -/
def clean_marketing_data (parseDate : Cell → Option Nat)
    (parseNum : String → Option ℚ) (df : DF) (channel_name : String) :
    Except CleanError DF :=
  let cols1 := df.cols.map normalizeCol
  let dateCols := cols1.filter fun c => containsSubstr "date" (lowerStr c)
  let st1 : List String × List (List Cell) :=
    match dateCols with
    | [] => (cols1, df.rows)
    | dc :: _ =>
      (cols1.map fun c => if c = dc then "date" else c,
       df.rows.map (mapCellsUnder (fun cn => cn == dc)
         (toDatetimeCoerce parseDate) cols1))
  let cols2 := st1.1 ++ ["channel"]
  let rows2 := st1.2.map fun row => row ++ [Cell.str channel_name]
  let rows3 := rows2.map (mapCellsUnder (fun cn => cn ∈ marketingNumericCols)
    (fun c => Cell.num (coerceNumeric parseNum c)) cols2)
  let cols4 := cols2.map marketingRename
  dropnaDate cols4 rows3

/-- `clean_business_data` (data_processor.py 48-71): the same pipeline
without the channel tag and the convergence renames, with the business
numeric-column list. -/
def clean_business_data (parseDate : Cell → Option Nat)
    (parseNum : String → Option ℚ) (df : DF) : Except CleanError DF :=
  let cols1 := df.cols.map normalizeCol
  let dateCols := cols1.filter fun c => containsSubstr "date" (lowerStr c)
  let st1 : List String × List (List Cell) :=
    match dateCols with
    | [] => (cols1, df.rows)
    | dc :: _ =>
      (cols1.map fun c => if c = dc then "date" else c,
       df.rows.map (mapCellsUnder (fun cn => cn == dc)
         (toDatetimeCoerce parseDate) cols1))
  let rows3 := st1.2.map (mapCellsUnder (fun cn => cn ∈ businessNumericCols)
    (fun c => Cell.num (coerceNumeric parseNum c)) st1.1)
  dropnaDate st1.1 rows3

/-! ### Loader (`load_csv_files`, data_loader.py 11-40)

`os.listdir` and `pd.read_csv` are external: the directory is embedded as
a listing of file names each paired with the outcome of parsing it
(`Except.error` when `pd.read_csv` would raise). -/

/-- The `data_files` mapping built by the loader. -/
structure DataFiles where
  facebook : Option DF
  google : Option DF
  tiktok : Option DF
  business : Option DF
deriving DecidableEq

/-- The initial, empty mapping (data_loader.py 13-18). -/
def emptyDataFiles : DataFiles := ⟨none, none, none, none⟩

/-- Which source key a (lowercased) file name is routed to: the
`if/elif` chain of data_loader.py 28-35. -/
inductive Route where
  | facebook
  | google
  | tiktok
  | business
deriving DecidableEq

/-- The filename-substring dispatch of data_loader.py 28-35, in the same
order; `none` when the name matches no source token. -/
def fileRoute (low : String) : Option Route :=
  if containsSubstr "facebook" low then some Route.facebook
  else if containsSubstr "google" low then some Route.google
  else if containsSubstr "tiktok" low then some Route.tiktok
  else if containsSubstr "business" low then some Route.business
  else none

/-- Store a parsed table under its routed key. -/
def setRoute (acc : DataFiles) : Route → DF → DataFiles
  | Route.facebook, t => { acc with facebook := some t }
  | Route.google, t => { acc with google := some t }
  | Route.tiktok, t => { acc with tiktok := some t }
  | Route.business, t => { acc with business := some t }

/-- The `for file in os.listdir(...)` loop under its `try` (data_loader.py
23-38): parse every `.csv` whose name matches a source token; the first
parse failure returns the mapping accumulated so far together with the
error message, leaving the remaining files unread. -/
def loadLoop (acc : DataFiles) :
    List (String × Except String DF) → DataFiles × Option String
  | [] => (acc, none)
  | (name, res) :: rest =>
    if strEndsWith (lowerStr name) ".csv" then
      match fileRoute (lowerStr name) with
      | some rt =>
        match res with
        | Except.ok t => loadLoop (setRoute acc rt t) rest
        | Except.error e => (acc, some ("Error loading files: " ++ e))
      | none => loadLoop acc rest
    else loadLoop acc rest

/-- `load_csv_files` (data_loader.py 11-40): returns the not-found message
when the data folder is absent, otherwise runs the loading loop over the
directory listing. -/
def load_csv_files (folderPresent : Bool)
    (listing : List (String × Except String DF)) :
    DataFiles × Option String :=
  if folderPresent then loadLoop emptyDataFiles listing
  else (emptyDataFiles, some "Data folder not found")

/-! ### Aggregator (`aggregate_daily_marketing`, data_processor.py 112-140) -/

/-- Arithmetic mean, the `agg('mean')` of a pandas group: sum divided by
group size. -/
def mean (xs : List ℚ) : ℚ := xs.sum / xs.length

/-- Ascending lexicographic order on (date, channel) group keys: pandas
`groupby(['date', 'channel'])` sorts its keys ascending. -/
def keyLe (a b : Nat × String) : Prop :=
  a.1 < b.1 ∨ (a.1 = b.1 ∧ strLe a.2 b.2)

instance : DecidableRel keyLe := fun a b => by
  unfold keyLe; infer_instance

/-- The sorted, duplicate-free (date, channel) keys of
`groupby(['date', 'channel'])`. -/
def groupKeys (rows : List MRowM) : List (Nat × String) :=
  List.insertionSort keyLe ((rows.map fun r => (r.date, r.channel)).dedup)

/-- The rows of one (date, channel) group, in input order. -/
def groupRows (rows : List MRowM) (k : Nat × String) : List MRowM :=
  rows.filter fun r => decide (r.date = k.1 ∧ r.channel = k.2)

/-- One aggregated (date, channel) row (data_processor.py 114-123): sums
of the raw counts, means of the derived ratios. -/
def aggChannelRow (rows : List MRowM) (k : Nat × String) : MRowM :=
  let g := groupRows rows k
  { date := k.1
    channel := k.2
    impressions := (g.map fun r => r.impressions).sum
    clicks := (g.map fun r => r.clicks).sum
    spend := (g.map fun r => r.spend).sum
    revenue := (g.map fun r => r.revenue).sum
    ctr := mean (g.map fun r => r.ctr)
    cpc := mean (g.map fun r => r.cpc)
    roas := mean (g.map fun r => r.roas)
    cpm := mean (g.map fun r => r.cpm) }

/-- The sorted, duplicate-free dates of `groupby('date')`. -/
def dateKeys (rows : List MRowM) : List Nat :=
  List.insertionSort (· ≤ ·) ((rows.map fun r => r.date).dedup)

/-- The rows contributing to one date, all channels together. -/
def dateRows (rows : List MRowM) (d : Nat) : List MRowM :=
  rows.filter fun r => decide (r.date = d)

/-- One `Total` pseudo-channel row (data_processor.py 126-135): sums of
the raw counts over the whole date, ratios recomputed from those sums by
`create_derived_metrics`, channel label set to `Total`. -/
def aggTotalRow (rows : List MRowM) (d : Nat) : MRowM :=
  let g := dateRows rows d
  let imp := (g.map fun r => r.impressions).sum
  let clk := (g.map fun r => r.clicks).sum
  let sp := (g.map fun r => r.spend).sum
  let rev := (g.map fun r => r.revenue).sum
  { date := d
    channel := "Total"
    impressions := imp
    clicks := clk
    spend := sp
    revenue := rev
    ctr := deriveCtr imp clk
    cpc := deriveCpc clk sp
    roas := deriveRoas sp rev
    cpm := deriveCpm imp sp }

/-- `aggregate_daily_marketing` (data_processor.py 112-140): the
per-(date, channel) aggregates concatenated with the per-date `Total`
aggregates. -/
def aggregate_daily_marketing (rows : List MRowM) : List MRowM :=
  (groupKeys rows).map (aggChannelRow rows) ++
    (dateKeys rows).map (aggTotalRow rows)

/-! ### Final dataset rows and the merger
(`merge_marketing_business`, data_processor.py 142-156) -/

/-- A value of the `channel` column of the final dataset.  After the outer
merge, `fillna(0)` writes the number `0` into the `channel` cell of rows
coming only from the business side, so the column mixes strings and
numbers. -/
inductive ChannelVal where
  | num (q : ℚ)
  | str (s : String)
deriving DecidableEq

/-- The order pandas uses to sort and group the mixed-type `channel`
column (`safe_sort`): numbers before strings, each kind by its own
order. -/
def chanLe : ChannelVal → ChannelVal → Prop
  | ChannelVal.num a, ChannelVal.num b => a ≤ b
  | ChannelVal.num _, ChannelVal.str _ => True
  | ChannelVal.str _, ChannelVal.num _ => False
  | ChannelVal.str a, ChannelVal.str b => strLe a b

instance : DecidableRel chanLe := fun a b =>
  match a, b with
  | ChannelVal.num a, ChannelVal.num b => inferInstanceAs (Decidable (a ≤ b))
  | ChannelVal.num _, ChannelVal.str _ => inferInstanceAs (Decidable True)
  | ChannelVal.str _, ChannelVal.num _ => inferInstanceAs (Decidable False)
  | ChannelVal.str a, ChannelVal.str b => inferInstanceAs (Decidable (strLe a b))

/-- A cleaned business row (the schema of `clean_business_data` output as
consumed by the merge). -/
structure BRow where
  date : Nat
  orders : ℚ
  new_orders : ℚ
  new_customers : ℚ
  total_revenue : ℚ
  gross_profit : ℚ
  cogs : ℚ
deriving DecidableEq

/-- A row of the final dataset: marketing columns, the mixed-type channel,
and the business columns. -/
structure FRow where
  date : Nat
  channel : ChannelVal
  impressions : ℚ
  clicks : ℚ
  spend : ℚ
  revenue : ℚ
  ctr : ℚ
  cpc : ℚ
  roas : ℚ
  cpm : ℚ
  orders : ℚ
  new_orders : ℚ
  new_customers : ℚ
  total_revenue : ℚ
  gross_profit : ℚ
  cogs : ℚ
deriving DecidableEq

/-- A marketing row matched with the business row of its date. -/
def mergedRow (m : MRowM) (b : BRow) : FRow :=
  { date := m.date, channel := ChannelVal.str m.channel
    impressions := m.impressions, clicks := m.clicks, spend := m.spend
    revenue := m.revenue, ctr := m.ctr, cpc := m.cpc, roas := m.roas
    cpm := m.cpm, orders := b.orders, new_orders := b.new_orders
    new_customers := b.new_customers, total_revenue := b.total_revenue
    gross_profit := b.gross_profit, cogs := b.cogs }

/-- A marketing row with no business match: the business columns are NaN
after the outer merge and become 0 through `fillna(0)`. -/
def marketingOnlyRow (m : MRowM) : FRow :=
  { date := m.date, channel := ChannelVal.str m.channel
    impressions := m.impressions, clicks := m.clicks, spend := m.spend
    revenue := m.revenue, ctr := m.ctr, cpc := m.cpc, roas := m.roas
    cpm := m.cpm, orders := 0, new_orders := 0, new_customers := 0
    total_revenue := 0, gross_profit := 0, cogs := 0 }

/-- A business row with no marketing match: every marketing column —
`channel` included — is NaN after the outer merge and becomes the number 0
through `fillna(0)`. -/
def businessOnlyRow (b : BRow) : FRow :=
  { date := b.date, channel := ChannelVal.num 0
    impressions := 0, clicks := 0, spend := 0, revenue := 0
    ctr := 0, cpc := 0, roas := 0, cpm := 0
    orders := b.orders, new_orders := b.new_orders
    new_customers := b.new_customers, total_revenue := b.total_revenue
    gross_profit := b.gross_profit, cogs := b.cogs }

/-- The (date, channel) ascending sort of data_processor.py 153, with the
mixed-type channel order. -/
def frowLe (a b : FRow) : Prop :=
  a.date < b.date ∨ (a.date = b.date ∧ chanLe a.channel b.channel)

instance : DecidableRel frowLe := fun a b => by
  unfold frowLe; infer_instance

/-- The merge-fill-sort body of `merge_marketing_business`
(data_processor.py 147-153), applied to aggregated marketing rows and
already-cleaned business rows: outer join on `date` (each marketing row
paired with every business row of its date, unmatched rows from either
side kept), `fillna(0)` on the join nulls, then a stable ascending sort by
(date, channel). -/
def mergeFillSort (marketing_daily : List MRowM) (business : List BRow) :
    List FRow :=
  let leftPart := marketing_daily.flatMap fun m =>
    let hits := business.filter fun b => decide (b.date = m.date)
    if hits.isEmpty then [marketingOnlyRow m] else hits.map (mergedRow m)
  let rightPart :=
    (business.filter fun b =>
      decide (¬ ∃ m ∈ marketing_daily, m.date = b.date)).map businessOnlyRow
  List.insertionSort frowLe (leftPart ++ rightPart)

/-! ### Analytics engine (`analytics.py`) -/

/-- One row of the `calculate_channel_performance` summary
(analytics.py 16-48). -/
structure ChanSummary where
  channel : ChannelVal
  spend : ℚ
  revenue : ℚ
  impressions : ℚ
  clicks : ℚ
  roas : ℚ
  ctr : ℚ
  cpc : ℚ
  cpm : ℚ
deriving DecidableEq

/-- Ascending channel keys of `groupby('channel')` over the
non-`Total` rows. -/
def chanKeys (rows : List FRow) : List ChannelVal :=
  List.insertionSort chanLe ((rows.map fun r => r.channel).dedup)

/-- The rows of one channel group, in input order. -/
def chanGroup (rows : List FRow) (k : ChannelVal) : List FRow :=
  rows.filter fun r => decide (r.channel = k)

/-- The grouped-and-derived summary of analytics.py 16-46, in ascending
channel-key order, before the final spend sort: sums of
spend/revenue/impressions/clicks per channel, then the four `np.where`
guarded ratios of the sums. -/
def channelSummaries (data : List FRow) : List ChanSummary :=
  let channel_data := data.filter fun r =>
    decide (r.channel ≠ ChannelVal.str "Total")
  (chanKeys channel_data).map fun k =>
    let g := chanGroup channel_data k
    let sp := (g.map fun r => r.spend).sum
    let rev := (g.map fun r => r.revenue).sum
    let imp := (g.map fun r => r.impressions).sum
    let clk := (g.map fun r => r.clicks).sum
    { channel := k, spend := sp, revenue := rev, impressions := imp
      clicks := clk, roas := deriveRoas sp rev, ctr := deriveCtr imp clk
      cpc := deriveCpc clk sp, cpm := deriveCpm imp sp }

/-- Ascending spend order on summary rows. -/
def spendLe (a b : ChanSummary) : Prop := a.spend ≤ b.spend

instance : DecidableRel spendLe := fun a b =>
  inferInstanceAs (Decidable (a.spend ≤ b.spend))

instance : IsTotal ChanSummary spendLe :=
  ⟨fun a b => le_total a.spend b.spend⟩

instance : IsTrans ChanSummary spendLe :=
  ⟨fun _ _ _ hab hbc => le_trans hab hbc⟩

/-- `channel_summary.sort_values('spend', ascending=False)`
(analytics.py 48).  pandas implements a descending single-key sort by
taking the ascending argsort and reversing it
(`pandas/core/sorting.py`, `nargsort`); at these row counts numpy's sort
runs its insertion-sort branch, which is stable ascending.  The descending
result therefore carries equal-spend rows in reverse input order. -/
def sortValuesSpendDesc (l : List ChanSummary) : List ChanSummary :=
  (List.insertionSort spendLe l).reverse

/-- `calculate_channel_performance` (analytics.py 11-48). -/
def calculate_channel_performance (data : List FRow) : List ChanSummary :=
  sortValuesSpendDesc (channelSummaries data)

/-- The Total-channel rows of the final dataset, in input order. -/
def totalRows (data : List FRow) : List FRow :=
  data.filter fun r => decide (r.channel = ChannelVal.str "Total")

/-- The result record of `calculate_business_impact`
(analytics.py 80-89). -/
structure BizImpact where
  total_marketing_spend : ℚ
  total_attributed_revenue : ℚ
  total_business_revenue : ℚ
  attribution_rate : ℚ
  overall_roas : ℚ
  avg_daily_spend : ℚ
  avg_daily_revenue : ℚ
  data_period_days : Nat
deriving DecidableEq

/-- `calculate_business_impact` (analytics.py 62-89): sums over the
Total-channel rows, each ratio guarded by a strictly-positive test on its
denominator (`... if total_business_revenue > 0 else 0`, etc.), the
per-day averages guarded by `len(total_data) > 0`. -/
def calculate_business_impact (data : List FRow) : BizImpact :=
  let total_data := totalRows data
  let total_marketing_spend := (total_data.map fun r => r.spend).sum
  let total_attributed_revenue := (total_data.map fun r => r.revenue).sum
  let total_business_revenue := (total_data.map fun r => r.total_revenue).sum
  { total_marketing_spend := total_marketing_spend
    total_attributed_revenue := total_attributed_revenue
    total_business_revenue := total_business_revenue
    attribution_rate :=
      if 0 < total_business_revenue then
        total_attributed_revenue / total_business_revenue * 100
      else 0
    overall_roas :=
      if 0 < total_marketing_spend then
        total_attributed_revenue / total_marketing_spend
      else 0
    avg_daily_spend :=
      if 0 < total_data.length then
        total_marketing_spend / total_data.length
      else 0
    avg_daily_revenue :=
      if 0 < total_data.length then
        total_attributed_revenue / total_data.length
      else 0
    data_period_days := total_data.length }

/-- `pandas.Series.median`: middle of the sorted values, or the average of
the two middles for an even count.  On an empty series pandas yields NaN;
the 0 returned here is never compared against anything in that case, since
every use filters an empty frame to an empty result regardless. -/
def median (xs : List ℚ) : ℚ :=
  let s := List.insertionSort (fun a b : ℚ => a ≤ b) xs
  let n := xs.length
  if n = 0 then 0
  else if n % 2 = 1 then s.getD (n / 2) 0
  else (s.getD (n / 2 - 1) 0 + s.getD (n / 2) 0) / 2

/-- The `type` tags of the insight rule engine
(`get_performance_insights`, analytics.py 98-163), in rule order. -/
inductive InsightType where
  | topPerformer
  | optimizationOpportunity
  | conversionOptimization
  | attributionGap
  | portfolioRisk
deriving DecidableEq

/-- Insight priorities. -/
inductive InsightPriority where
  | high
  | medium
deriving DecidableEq

/-- One generated insight.  The free-text fields of the source are
abstracted to the data that determines them: the channel values mentioned,
in mention order, and the numeric figures interpolated into the text, in
interpolation order. -/
structure Insight where
  itype : InsightType
  priority : InsightPriority
  channels : List ChannelVal
  figures : List ℚ
deriving DecidableEq

/-- `get_performance_insights` (analytics.py 98-163): the five rules
evaluated in source order, each appending at most one insight, truncated
to the first 5.
Rule 1 fires when the performance table is non-empty and reports
`channel_perf.iloc[0]` — the first row of the spend-descending sort, i.e.
the highest-spend channel — with figures roas, spend, spend×0.2×roas.
Rule 2 fires on channels with ROAS < 2.0, figure 15% of their summed
spend.  Rule 3 fires on channels with CTR above the median and ROAS below
the median, reporting the first with figure ctr×100.  Rule 4 fires when
the attribution rate is below 15.  Rule 5 fires when the top row's spend
share exceeds 0.6 (an all-zero spend total makes the share NaN in numpy
and 0 here; both fail the 0.6 test). -/
def get_performance_insights (data : List FRow) : List Insight :=
  let channel_perf := calculate_channel_performance data
  let business_metrics := calculate_business_impact data
  let i1 : List Insight :=
    match channel_perf.head? with
    | some top =>
      [⟨InsightType.topPerformer, InsightPriority.high, [top.channel],
        [top.roas, top.spend, top.spend * (2 / 10) * top.roas]⟩]
    | none => []
  let low_roas := channel_perf.filter fun r => decide (r.roas < 2)
  let i2 : List Insight :=
    if low_roas.isEmpty then []
    else
      [⟨InsightType.optimizationOpportunity, InsightPriority.high,
        low_roas.map fun r => r.channel,
        [(low_roas.map fun r => r.spend).sum * (15 / 100)]⟩]
  let ctrMed := median (channel_perf.map fun r => r.ctr)
  let roasMed := median (channel_perf.map fun r => r.roas)
  let hclr := channel_perf.filter fun r =>
    decide (ctrMed < r.ctr ∧ r.roas < roasMed)
  let i3 : List Insight :=
    match hclr.head? with
    | some c =>
      [⟨InsightType.conversionOptimization, InsightPriority.medium,
        [c.channel], [c.ctr * 100]⟩]
    | none => []
  let i4 : List Insight :=
    if business_metrics.attribution_rate < 15 then
      [⟨InsightType.attributionGap, InsightPriority.medium, [],
        [business_metrics.attribution_rate]⟩]
    else []
  let i5 : List Insight :=
    match channel_perf.head? with
    | some top =>
      let share := top.spend / (channel_perf.map fun r => r.spend).sum
      if (6 / 10 : ℚ) < share then
        [⟨InsightType.portfolioRisk, InsightPriority.medium, [top.channel],
          [share * 100]⟩]
      else []
    | none => []
  (i1 ++ i2 ++ i3 ++ i4 ++ i5).take 5

/-! ### Daily trends and seasonal patterns (analytics.py 50-60, 216-249) -/

/-- A daily-trend row: a Total-channel final row plus the three 7-day
rolling-average columns. -/
structure TrendRow extends FRow where
  spend_7d_avg : ℚ
  roas_7d_avg : ℚ
  revenue_7d_avg : ℚ
deriving DecidableEq

/-- `Series.rolling(window=7, min_periods=1).mean()`: at index `i`, the
mean of the trailing window of the last `min(7, i+1)` values. -/
def rollingMean7 (xs : List ℚ) : List ℚ :=
  (List.range xs.length).map fun i => mean ((xs.take (i + 1)).drop (i + 1 - 7))

/-- Ascending date order on final rows (`sort_values('date')`, a stable
ascending sort). -/
def dateLe (a b : FRow) : Prop := a.date ≤ b.date

instance : DecidableRel dateLe := fun a b =>
  inferInstanceAs (Decidable (a.date ≤ b.date))

/-- The table built by `calculate_daily_trends` (analytics.py 50-60): the
Total-channel subset sorted by date, extended with the three rolling
averages. -/
def calculate_daily_trends_table (data : List FRow) : List TrendRow :=
  let daily := List.insertionSort dateLe (totalRows data)
  let sAvg := rollingMean7 (daily.map fun r => r.spend)
  let rAvg := rollingMean7 (daily.map fun r => r.roas)
  let vAvg := rollingMean7 (daily.map fun r => r.revenue)
  List.zipWith
    (fun r t =>
      { toFRow := r, spend_7d_avg := t.1, roas_7d_avg := t.2.1
        revenue_7d_avg := t.2.2 })
    daily (List.zip sAvg (List.zip rAvg vAvg))

/-- Weekday names by day serial modulo 7; serial 0 (1970-01-01) is a
Thursday, so the cycle starts there. -/
def dayNames : List String :=
  ["Thursday", "Friday", "Saturday", "Sunday", "Monday", "Tuesday",
   "Wednesday"]

/-- `date.dt.day_name()` on a day serial. -/
def day_name (d : Nat) : String := dayNames.getD (d % 7) ""

/-- One row of the day-of-week performance table
(analytics.py 227-231). -/
structure DowRow where
  day_of_week : String
  spend : ℚ
  revenue : ℚ
  roas : ℚ
deriving DecidableEq

/-- The result of `calculate_seasonal_patterns` when at least 30
Total-channel rows exist: best and worst weekday (name, mean roas, mean
spend) and the full day-of-week table. -/
structure SeasonalResult where
  best_day : String × ℚ × ℚ
  worst_day : String × ℚ × ℚ
  dow_performance : List DowRow
deriving DecidableEq

/-- `Series.idxmax` then `.loc`: the first row attaining the maximal
roas. -/
def firstMaxRoas (l : List DowRow) : Option DowRow :=
  l.foldl
    (fun acc r =>
      match acc with
      | none => some r
      | some b => if b.roas < r.roas then some r else some b)
    none

/-- `Series.idxmin` then `.loc`: the first row attaining the minimal
roas. -/
def firstMinRoas (l : List DowRow) : Option DowRow :=
  l.foldl
    (fun acc r =>
      match acc with
      | none => some r
      | some b => if r.roas < b.roas then some r else some b)
    none

/-- Ascending weekday-name keys of `groupby('day_of_week')`. -/
def dowKeys (tagged : List (FRow × String)) : List String :=
  List.insertionSort strLe
    ((tagged.map fun p => p.2).dedup)

/-- The table built by `calculate_seasonal_patterns`
(analytics.py 216-249): `none` stands for the empty dict returned when
fewer than 30 Total-channel rows exist.  `isoWeek` abstracts the external
`dt.isocalendar().week`; the column it fills is assigned to the copied
frame and never read afterwards.  The `best`/`worst` lookups cannot miss
because the 30-row floor makes the grouped table non-empty. -/
def calculate_seasonal_patterns_table (isoWeek : Nat → Nat)
    (data : List FRow) : Option SeasonalResult :=
  let daily_data := totalRows data
  if daily_data.length < 30 then none
  else
    let tagged := daily_data.map fun r => (r, day_name r.date)
    let weekCol := daily_data.map fun r => isoWeek r.date
    let dow := (dowKeys tagged).map fun k =>
      let g := (tagged.filter fun p => decide (p.2 = k)).map fun p => p.1
      { day_of_week := k
        spend := mean (g.map fun r => r.spend)
        revenue := mean (g.map fun r => r.revenue)
        roas := mean (g.map fun r => r.roas) : DowRow }
    match firstMaxRoas dow, firstMinRoas dow, weekCol with
    | some b, some w, _ =>
      some ⟨(b.day_of_week, b.roas, b.spend), (w.day_of_week, w.roas, w.spend),
        dow⟩
    | _, _, _ => none

/-! ### The stateful analytics engine (C8)

`MarketingAnalytics` holds the constructor argument in `self.data`
(analytics.py 8-9).  Each method is embedded as a state transformer
returning its output together with the post-call state.  Every method
body of the source reads `self.data`, immediately takes a `.copy()` of
the slice it works on, assigns new columns only to that copy, and never
writes any attribute of `self`; the embeddings below mirror that by
passing the state through unchanged. -/

structure MarketingAnalytics where
  data : List FRow
deriving DecidableEq

/-- Stateful `calculate_channel_performance`. -/
def MarketingAnalytics.channel_performance (a : MarketingAnalytics) :
    List ChanSummary × MarketingAnalytics :=
  (calculate_channel_performance a.data, a)

/-- Stateful `calculate_daily_trends`: the rolling-average columns are
added to the copied Total-subset, not to `self.data`. -/
def MarketingAnalytics.daily_trends (a : MarketingAnalytics) :
    List TrendRow × MarketingAnalytics :=
  (calculate_daily_trends_table a.data, a)

/-- Stateful `calculate_business_impact`. -/
def MarketingAnalytics.business_impact (a : MarketingAnalytics) :
    BizImpact × MarketingAnalytics :=
  (calculate_business_impact a.data, a)

/-- Stateful `get_performance_insights`. -/
def MarketingAnalytics.performance_insights (a : MarketingAnalytics) :
    List Insight × MarketingAnalytics :=
  (get_performance_insights a.data, a)

/-- Stateful `calculate_seasonal_patterns`: the `day_of_week` and
`week_number` columns are added to the copied Total-subset, not to
`self.data`. -/
def MarketingAnalytics.seasonal_patterns (isoWeek : Nat → Nat)
    (a : MarketingAnalytics) : Option SeasonalResult × MarketingAnalytics :=
  (calculate_seasonal_patterns_table isoWeek a.data, a)

/-! ### Per-claim statements -/

/-- C1, row by row: the output row keeps the input columns and adds the
four derived metrics under the zero-denominator-yields-zero policy, each
non-degenerate value being the exact quotient.  Every value is a total
rational — none is NaN or an error. -/
def C1Prop (df : List MRow) : Prop :=
  List.Forall₂
    (fun (r : MRow) (m : MRowM) =>
      m.toMRow = r ∧
      (r.impressions = 0 → m.ctr = 0) ∧
      (r.impressions ≠ 0 → m.ctr = r.clicks / r.impressions) ∧
      (r.clicks = 0 → m.cpc = 0) ∧
      (r.clicks ≠ 0 → m.cpc = r.spend / r.clicks) ∧
      (r.spend = 0 → m.roas = 0) ∧
      (r.spend ≠ 0 → m.roas = r.revenue / r.spend) ∧
      (r.impressions = 0 → m.cpm = 0) ∧
      (r.impressions ≠ 0 → m.cpm = r.spend / r.impressions * 1000))
    df (create_derived_metrics df)

/-- C2, for one date `d`: the aggregated output holds exactly one `Total`
row for `d`, carrying the four sums over all input rows of that date with
`roas` the ratio of those sums (0 when the summed spend is 0); and for
every (date, channel) group of the input, exactly one output row, carrying
the four sums of its group and the arithmetic means of the group's four
per-row ratios. -/
def C2Prop (rows : List MRowM) (d : Nat) : Prop :=
  let out := aggregate_daily_marketing rows
  let g := dateRows rows d
  (out.filter (fun r => decide (r.date = d ∧ r.channel = "Total")) =
    [aggTotalRow rows d]) ∧
  (aggTotalRow rows d).impressions = (g.map fun r => r.impressions).sum ∧
  (aggTotalRow rows d).clicks = (g.map fun r => r.clicks).sum ∧
  (aggTotalRow rows d).spend = (g.map fun r => r.spend).sum ∧
  (aggTotalRow rows d).revenue = (g.map fun r => r.revenue).sum ∧
  (aggTotalRow rows d).roas =
    (if (g.map fun r => r.spend).sum = 0 then 0
     else (g.map fun r => r.revenue).sum / (g.map fun r => r.spend).sum) ∧
  (∀ c, (d, c) ∈ rows.map (fun r => (r.date, r.channel)) →
    (out.filter (fun r => decide (r.date = d ∧ r.channel = c)) =
      [aggChannelRow rows (d, c)]) ∧
    (aggChannelRow rows (d, c)).impressions =
      ((groupRows rows (d, c)).map fun r => r.impressions).sum ∧
    (aggChannelRow rows (d, c)).clicks =
      ((groupRows rows (d, c)).map fun r => r.clicks).sum ∧
    (aggChannelRow rows (d, c)).spend =
      ((groupRows rows (d, c)).map fun r => r.spend).sum ∧
    (aggChannelRow rows (d, c)).revenue =
      ((groupRows rows (d, c)).map fun r => r.revenue).sum ∧
    (aggChannelRow rows (d, c)).ctr =
      mean ((groupRows rows (d, c)).map fun r => r.ctr) ∧
    (aggChannelRow rows (d, c)).cpc =
      mean ((groupRows rows (d, c)).map fun r => r.cpc) ∧
    (aggChannelRow rows (d, c)).roas =
      mean ((groupRows rows (d, c)).map fun r => r.roas) ∧
    (aggChannelRow rows (d, c)).cpm =
      mean ((groupRows rows (d, c)).map fun r => r.cpm))

/-- The hypothesis of the amended C3: no normalized column name contains
the substring `date`. -/
def noDateCols (df : DF) : Prop :=
  ∀ c ∈ df.cols, containsSubstr "date" (lowerStr (normalizeCol c)) = false

/-- A file name the loader both reads and routes: ends in `.csv` and
contains one of the four source tokens. -/
def matchedCsv (name : String) : Prop :=
  strEndsWith (lowerStr name) ".csv" = true ∧ (fileRoute (lowerStr name)).isSome = true

instance (df : DF) : Decidable (noDateCols df) :=
  inferInstanceAs
    (Decidable
      (∀ c ∈ df.cols, containsSubstr "date" (lowerStr (normalizeCol c)) = false))

instance (name : String) : Decidable (matchedCsv name) :=
  inferInstanceAs (Decidable (_ ∧ _))

instance : DecidableEq (Except CleanError DF) := fun a b =>
  match a, b with
  | Except.ok x, Except.ok y =>
    if h : x = y then isTrue (by rw [h]) else isFalse (by simp [h])
  | Except.ok _, Except.error _ => isFalse (by simp)
  | Except.error _, Except.ok _ => isFalse (by simp)
  | Except.error x, Except.error y =>
    if h : x = y then isTrue (by rw [h]) else isFalse (by simp [h])

/-- C5 as amended: the performance rows are sorted by spend descending,
and rows of equal spend appear in the reverse of their group order —
pandas realizes `ascending=False` by reversing the stable ascending
argsort. -/
def C5Prop (data : List FRow) : Prop :=
  List.Sorted (fun a b : ChanSummary => b.spend ≤ a.spend)
    (calculate_channel_performance data) ∧
  ∀ a b : ChanSummary, List.Sublist [a, b] (channelSummaries data) →
    a.spend = b.spend →
    List.Sublist [b, a] (calculate_channel_performance data)

/-- C7: the attribution rate is the Total-channel attributed-revenue sum
over the Total-channel business-revenue sum times 100, 0 when that
business sum is 0, with no clamping; overall ROAS is attributed revenue
over spend, 0 when spend is 0; the per-day averages divide by the number
of Total-channel rows, 0 when there are none. -/
def C7Prop (data : List FRow) : Prop :=
  let b := calculate_business_impact data
  let td := totalRows data
  let tsp := (td.map fun r => r.spend).sum
  let tar := (td.map fun r => r.revenue).sum
  let tbr := (td.map fun r => r.total_revenue).sum
  (tbr = 0 → b.attribution_rate = 0) ∧
  (tbr ≠ 0 → b.attribution_rate = tar / tbr * 100) ∧
  (tsp = 0 → b.overall_roas = 0) ∧
  (tsp ≠ 0 → b.overall_roas = tar / tsp) ∧
  (td.length = 0 → b.avg_daily_spend = 0 ∧ b.avg_daily_revenue = 0) ∧
  (td.length ≠ 0 →
    b.avg_daily_spend = tsp / td.length ∧
    b.avg_daily_revenue = tar / td.length) ∧
  b.data_period_days = td.length

/-! ### Concrete example tables for witnesses and counterexamples -/

/-- Build a final-dataset row from the fields the analytics claims read;
all remaining columns are 0. -/
def mkFRow (date : Nat) (ch : ChannelVal) (imp clk sp rev totrev : ℚ) :
    FRow :=
  { date := date, channel := ch, impressions := imp, clicks := clk
    spend := sp, revenue := rev, ctr := 0, cpc := 0, roas := 0, cpm := 0
    orders := 0, new_orders := 0, new_customers := 0
    total_revenue := totrev, gross_profit := 0, cogs := 0 }

/-- Two marketing rows, one with zero impressions, one with zero spend. -/
def dfC1 : List MRow :=
  [⟨0, "Facebook", 0, 5, 10, 20⟩, ⟨0, "Google", 100, 5, 0, 7⟩]

/-- A marketing row whose numeric columns are negative. -/
def rNeg : MRow := ⟨0, "Facebook", -1, -2, -3, 5⟩

/-- Three metric-enriched marketing rows on one date: two Facebook rows
and one Google row. -/
def rowsC2 : List MRowM :=
  [⟨⟨1, "Facebook", 100, 10, 50, 150⟩, 1/10, 5, 3, 500⟩,
   ⟨⟨1, "Facebook", 200, 10, 30, 30⟩, 1/20, 3, 1, 150⟩,
   ⟨⟨1, "Google", 50, 5, 20, 100⟩, 1/10, 4, 5, 400⟩]

/-- A raw frame none of whose columns mentions a date. -/
def dfC3 : DF := ⟨["Day", "Clicks"], [[Cell.str "2024-01-01", Cell.num 2]]⟩

/-- A concrete stand-in for the external pandas date parser. -/
def pdNone : Cell → Option Nat := fun _ => none

/-- A concrete stand-in for the external pandas numeric parser. -/
def pnNone : String → Option ℚ := fun _ => none

/-- An empty parsed table. -/
def dfEmptyDF : DF := ⟨[], []⟩

/-- A directory in which the facebook file parses and the google file
fails to parse. -/
def listingC4 : List (String × Except String DF) :=
  [("facebook.csv", Except.ok dfEmptyDF),
   ("google.csv", Except.error "bad file")]

/-- Two equal-spend channels. -/
def dataC5 : List FRow :=
  [mkFRow 0 (ChannelVal.str "Alpha") 0 0 10 10 0,
   mkFRow 0 (ChannelVal.str "Beta") 0 0 10 20 0]

/-- The Alpha summary of `dataC5`. -/
def sumAlpha : ChanSummary := ⟨ChannelVal.str "Alpha", 10, 10, 0, 0, 1, 0, 0, 0⟩

/-- The Beta summary of `dataC5`. -/
def sumBeta : ChanSummary := ⟨ChannelVal.str "Beta", 10, 20, 0, 0, 2, 0, 0, 0⟩

/-- Two channels where the higher-spend channel (Alpha, spend 100,
ROAS 1) is not the higher-ROAS channel (Beta, spend 10, ROAS 5). -/
def dataC6 : List FRow :=
  [mkFRow 0 (ChannelVal.str "Alpha") 1000 10 100 100 0,
   mkFRow 0 (ChannelVal.str "Beta") 1000 10 10 50 0]

/-- The Alpha summary of `dataC6`: highest spend, ROAS 1. -/
def sumA6 : ChanSummary :=
  ⟨ChannelVal.str "Alpha", 100, 100, 1000, 10, 1, 1/100, 10, 100⟩

/-- The Beta summary of `dataC6`: lower spend, ROAS 5. -/
def sumB6 : ChanSummary :=
  ⟨ChannelVal.str "Beta", 10, 50, 1000, 10, 5, 1/100, 1, 10⟩

/-- One Total-channel day on which attributed revenue (100) exceeds
business revenue (50). -/
def dataC7 : List FRow :=
  [mkFRow 3 (ChannelVal.str "Total") 0 0 50 100 50]

/-- One cleaned business row. -/
def bW : BRow := ⟨7, 1, 2, 3, 4, 5, 6⟩

/-! ## Theorems -/

/-! ### Shared helper lemmas -/

theorem aggTotalRow_date (rows : List MRowM) (d : Nat) :
    (aggTotalRow rows d).date = d := rfl

theorem aggTotalRow_channel (rows : List MRowM) (d : Nat) :
    (aggTotalRow rows d).channel = "Total" := rfl

theorem aggChannelRow_date (rows : List MRowM) (k : Nat × String) :
    (aggChannelRow rows k).date = k.1 := rfl

theorem aggChannelRow_channel (rows : List MRowM) (k : Nat × String) :
    (aggChannelRow rows k).channel = k.2 := rfl

/-- In a duplicate-free list, filtering for the key `d` of a member
returns exactly the one element carrying that key. -/
theorem filter_key_singleton {α β : Type} [DecidableEq β] (f : α → β)
    {l : List α} (h : (l.map f).Nodup) {d : β} (hd : d ∈ l.map f) :
    ∃ b ∈ l, f b = d ∧ l.filter (fun x => decide (f x = d)) = [b] := by
  induction l with
  | nil => simp at hd
  | cons a t ih =>
    simp only [List.map_cons, List.nodup_cons] at h
    rw [List.map_cons] at hd
    rcases List.mem_cons.mp hd with h1 | h2
    · refine ⟨a, List.mem_cons_self a t, h1.symm, ?_⟩
      have hrest : t.filter (fun x => decide (f x = d)) = [] := by
        refine List.filter_eq_nil_iff.mpr fun x hx => ?_
        simp only [decide_eq_true_eq]
        intro hfx
        exact h.1 (by rw [← h1, ← hfx]; exact List.mem_map_of_mem f hx)
      simp [List.filter_cons, h1.symm, hrest]
    · have hfa : f a ≠ d := fun hfa => h.1 (by rw [hfa]; exact h2)
      obtain ⟨b, hb, hfb, hfil⟩ := ih h.2 h2
      refine ⟨b, List.mem_cons_of_mem a hb, hfb, ?_⟩
      simp [List.filter_cons, hfa, hfil]

/-! ### C1 (confirmed) and C9 (confirmed): the metric deriver -/

/-- C1: for every input row, `create_derived_metrics` keeps the raw
columns and adds ctr/cpc/roas/cpm under the zero-denominator-yields-zero
policy, the non-degenerate value being the exact quotient with no
clamping; every derived value is a total rational, never NaN or an error.
Stated for rows with non-negative impressions/clicks/spend, the domain the
data model gives these columns (negative inputs are the subject of C9). -/
theorem c1_create_derived_metrics (df : List MRow)
    (h : ∀ r ∈ df, 0 ≤ r.impressions ∧ 0 ≤ r.clicks ∧ 0 ≤ r.spend) :
    C1Prop df := by
  unfold C1Prop create_derived_metrics
  induction df with
  | nil => exact List.Forall₂.nil
  | cons r t ih =>
    refine List.Forall₂.cons ?_ (ih fun a ha => h a (List.mem_cons_of_mem _ ha))
    obtain ⟨hi, hc, hs⟩ := h r (List.mem_cons_self _ _)
    refine ⟨rfl, fun hx => ?_, fun hx => ?_, fun hx => ?_, fun hx => ?_,
      fun hx => ?_, fun hx => ?_, fun hx => ?_, fun hx => ?_⟩
    · simp [create_derived_metrics_row, deriveCtr, hx]
    · simp [create_derived_metrics_row, deriveCtr,
        lt_of_le_of_ne hi (Ne.symm hx)]
    · simp [create_derived_metrics_row, deriveCpc, hx]
    · simp [create_derived_metrics_row, deriveCpc,
        lt_of_le_of_ne hc (Ne.symm hx)]
    · simp [create_derived_metrics_row, deriveRoas, hx]
    · simp [create_derived_metrics_row, deriveRoas,
        lt_of_le_of_ne hs (Ne.symm hx)]
    · simp [create_derived_metrics_row, deriveCpm, hx]
    · simp [create_derived_metrics_row, deriveCpm,
        lt_of_le_of_ne hi (Ne.symm hx)]

/-- Witness for C1 at a concrete two-row table containing a
zero-impressions row and a zero-spend row. -/
theorem c1_create_derived_metrics_witness :
    (∀ r ∈ dfC1, 0 ≤ r.impressions ∧ 0 ≤ r.clicks ∧ 0 ≤ r.spend) ∧
      C1Prop dfC1 :=
  ⟨by decide, c1_create_derived_metrics dfC1 (by decide)⟩

/-- C9: each division is guarded by a strictly-positive test, so a
negative denominator also yields 0 rather than the signed quotient; and
the 0-substituting numeric clean-up returns a negative value only when
that value was already present in the source cell (directly or through a
successful parse) — the substitution itself never produces a negative. -/
theorem c9_negative_denominator_guards (r : MRow) :
    ((r.impressions < 0 →
        (create_derived_metrics_row r).ctr = 0 ∧
          (create_derived_metrics_row r).cpm = 0) ∧
      (r.clicks < 0 → (create_derived_metrics_row r).cpc = 0) ∧
      (r.spend < 0 → (create_derived_metrics_row r).roas = 0)) ∧
    ∀ (pn : String → Option ℚ) (c : Cell), coerceNumeric pn c < 0 →
      c = Cell.num (coerceNumeric pn c) ∨
        ∃ s, c = Cell.str s ∧ pn s = some (coerceNumeric pn c) := by
  constructor
  · refine ⟨fun h => ⟨?_, ?_⟩, fun h => ?_, fun h => ?_⟩
    · simp [create_derived_metrics_row, deriveCtr, not_lt.mpr h.le]
    · simp [create_derived_metrics_row, deriveCpm, not_lt.mpr h.le]
    · simp [create_derived_metrics_row, deriveCpc, not_lt.mpr h.le]
    · simp [create_derived_metrics_row, deriveRoas, not_lt.mpr h.le]
  · intro pn c hc
    cases c with
    | num q => exact Or.inl rfl
    | str s =>
      cases hps : pn s with
      | some q => exact Or.inr ⟨s, rfl, by simp [coerceNumeric, hps]⟩
      | none => simp [coerceNumeric, hps] at hc
    | date d => simp [coerceNumeric] at hc
    | na => simp [coerceNumeric] at hc

/-- Witness for C9 at a row whose impressions, clicks and spend are all
negative, and at a negative source cell. -/
theorem c9_negative_denominator_guards_witness :
    (create_derived_metrics_row rNeg).ctr = 0 ∧
      (create_derived_metrics_row rNeg).cpm = 0 ∧
      (create_derived_metrics_row rNeg).cpc = 0 ∧
      (create_derived_metrics_row rNeg).roas = 0 ∧
      (Cell.num (-3 : ℚ) =
          Cell.num (coerceNumeric pnNone (Cell.num (-3 : ℚ))) ∨
        ∃ s, Cell.num (-3 : ℚ) = Cell.str s ∧
          pnNone s = some (coerceNumeric pnNone (Cell.num (-3 : ℚ)))) := by
  obtain ⟨⟨h1, h2, h3⟩, h4⟩ := c9_negative_denominator_guards rNeg
  exact ⟨(h1 (by decide)).1, (h1 (by decide)).2, h2 (by decide),
    h3 (by decide), h4 pnNone (Cell.num (-3 : ℚ)) (by decide)⟩

/-! ### C8 (confirmed): the analytics engine never mutates its input -/

/-- C8: every embedded analytics method returns the stored table
unchanged, and a repeated call on the post-call state returns the
identical output — the methods only read `self.data` and write to copies,
so they are pure functions of the stored table. -/
theorem c8_analytics_no_mutation (a : MarketingAnalytics)
    (isoWeek : Nat → Nat) :
    a.channel_performance.2 = a ∧
      a.daily_trends.2 = a ∧
      a.business_impact.2 = a ∧
      a.performance_insights.2 = a ∧
      (a.seasonal_patterns isoWeek).2 = a ∧
      a.channel_performance.2.channel_performance.1 =
        a.channel_performance.1 ∧
      a.daily_trends.2.daily_trends.1 = a.daily_trends.1 ∧
      a.business_impact.2.business_impact.1 = a.business_impact.1 ∧
      a.performance_insights.2.performance_insights.1 =
        a.performance_insights.1 ∧
      ((a.seasonal_patterns isoWeek).2.seasonal_patterns isoWeek).1 =
        (a.seasonal_patterns isoWeek).1 :=
  ⟨rfl, rfl, rfl, rfl, rfl, rfl, rfl, rfl, rfl, rfl⟩

/-! ### C7 (confirmed): business impact ratios -/

/-- C7: the attribution rate is the Total-channel attributed-revenue sum
over the Total-channel business-revenue sum times 100 — exactly,
unclamped — with 0 when the business sum is 0; overall ROAS likewise over
the spend sum; the per-day averages divide by the count of Total-channel
rows, 0 when there are none.  The non-negativity hypotheses say the two
summed denominators are not negative, which holds of revenue/spend data
and makes the code's strictly-positive guards coincide with the claim's
zero tests. -/
theorem c7_business_impact (data : List FRow)
    (h1 : 0 ≤ ((totalRows data).map fun r => r.total_revenue).sum)
    (h2 : 0 ≤ ((totalRows data).map fun r => r.spend).sum) :
    C7Prop data := by
  unfold C7Prop calculate_business_impact
  dsimp only
  refine ⟨fun hx => ?_, fun hx => ?_, fun hx => ?_, fun hx => ?_,
    fun hx => ?_, fun hx => ?_, rfl⟩
  · simp [hx]
  · simp [lt_of_le_of_ne h1 (Ne.symm hx)]
  · simp [hx]
  · simp [lt_of_le_of_ne h2 (Ne.symm hx)]
  · simp [hx]
  · simp [Nat.pos_of_ne_zero hx]

/-- Witness for C7 at a one-day table whose attributed revenue (100)
exceeds its business revenue (50): the returned attribution rate is 200,
above 100 and unclamped. -/
theorem c7_business_impact_witness :
    (0 ≤ ((totalRows dataC7).map fun r => r.total_revenue).sum) ∧
      C7Prop dataC7 ∧
      (calculate_business_impact dataC7).attribution_rate = 200 := by
  have h1 : (0 : ℚ) ≤ ((totalRows dataC7).map fun r => r.total_revenue).sum := by
    norm_num [totalRows, dataC7, mkFRow, List.filter_cons]
  have h2 : (0 : ℚ) ≤ ((totalRows dataC7).map fun r => r.spend).sum := by
    norm_num [totalRows, dataC7, mkFRow, List.filter_cons]
  refine ⟨h1, c7_business_impact dataC7 h1 h2, ?_⟩
  norm_num [calculate_business_impact, totalRows, dataC7, mkFRow,
    List.filter_cons]

/-! ### C3 (corrected): failure mode when no date column exists -/

/-- Counterexample to C3 as stated: on a frame with no date-like column,
neither cleaner fails with the dedicated `NoDateColumnError`; no such
error exists in the code. -/
theorem c3_counterexample :
    clean_marketing_data pdNone pnNone dfC3 "Facebook" ≠
        Except.error CleanError.noDateColumn ∧
      clean_business_data pdNone pnNone dfC3 ≠
        Except.error CleanError.noDateColumn := by
  constructor <;> decide

/-- C3 as amended: when no normalized column name contains `date`, both
cleaners do abort, but with the generic pandas `KeyError` on the missing
`date` column raised by `dropna(subset=['date'])` — not with a dedicated
`NoDateColumnError`. -/
theorem c3_amended (df : DF) (pd : Cell → Option Nat)
    (pn : String → Option ℚ) (ch : String) (h : noDateCols df) :
    clean_marketing_data pd pn df ch =
        Except.error (CleanError.keyError "date") ∧
      clean_business_data pd pn df =
        Except.error (CleanError.keyError "date") := by
  have hdc : (df.cols.map normalizeCol).filter
      (fun c => containsSubstr "date" (lowerStr c)) = [] := by
    refine List.filter_eq_nil_iff.mpr fun c hc => ?_
    obtain ⟨c0, hc0, rfl⟩ := List.mem_map.mp hc
    simp [h c0 hc0]
  have hnd : ∀ c ∈ df.cols.map normalizeCol, c ≠ "date" := by
    intro c hc hceq
    obtain ⟨c0, hc0, rfl⟩ := List.mem_map.mp hc
    have hc0f := h c0 hc0
    rw [hceq] at hc0f
    exact absurd hc0f (by decide)
  constructor
  · simp only [clean_marketing_data]
    rw [hdc]
    have hdate : "date" ∉
        ((df.cols.map normalizeCol) ++ ["channel"]).map marketingRename := by
      intro hmem
      obtain ⟨c, hc, hcr⟩ := List.mem_map.mp hmem
      rcases List.mem_append.mp hc with hc1 | hc2
      · simp only [marketingRename] at hcr
        split_ifs at hcr with h1 h2
        · exact absurd hcr (by decide)
        · exact absurd hcr (by decide)
        · exact hnd c hc1 hcr
      · have hcch : c = "channel" := by simpa using hc2
        rw [hcch] at hcr
        exact absurd hcr (by decide)
    unfold dropnaDate
    rw [if_neg hdate]
  · simp only [clean_business_data]
    rw [hdc]
    have hdate : "date" ∉ df.cols.map normalizeCol := fun hmem =>
      hnd "date" hmem rfl
    unfold dropnaDate
    rw [if_neg hdate]

/-- Witness for the amended C3 at the concrete no-date-column frame. -/
theorem c3_amended_witness :
    noDateCols dfC3 ∧
      clean_marketing_data pdNone pnNone dfC3 "Facebook" =
        Except.error (CleanError.keyError "date") ∧
      clean_business_data pdNone pnNone dfC3 =
        Except.error (CleanError.keyError "date") :=
  ⟨by decide, (c3_amended dfC3 pdNone pnNone "Facebook" (by decide)).1,
    (c3_amended dfC3 pdNone pnNone "Facebook" (by decide)).2⟩

/-! ### C4 (corrected): partial tables escape alongside the load error -/

/-- Counterexample to C4 as stated: with a parseable facebook file listed
before an unparseable google file, the loader returns the error message
and, alongside it, the already-loaded facebook table — the caller does
receive partially loaded source tables together with the error. -/
theorem c4_counterexample :
    (load_csv_files true listingC4).2 =
        some "Error loading files: bad file" ∧
      (load_csv_files true listingC4).1.facebook = some dfEmptyDF := by
  constructor <;> decide

/-- C4 as amended: when a matched `.csv` cannot be parsed, the load does
stop at that file and returns an error message wrapping the cause — but
the tables of matched files parsed before the failure remain in the
returned mapping, so the caller receives a partially loaded mapping
alongside the error rather than an empty one. -/
theorem c4_amended (acc : DataFiles) (pre : List (String × Except String DF))
    (nm e : String) (post : List (String × Except String DF))
    (hpre : ∀ p ∈ pre, (∃ t, p.2 = Except.ok t) ∨ ¬ matchedCsv p.1)
    (hnm : matchedCsv nm) :
    loadLoop acc (pre ++ (nm, Except.error e) :: post) =
      ((loadLoop acc pre).1, some ("Error loading files: " ++ e)) := by
  revert hpre
  induction pre generalizing acc with
  | nil =>
    intro _
    obtain ⟨hcsv, hrt⟩ := hnm
    obtain ⟨rt, hrt2⟩ := Option.isSome_iff_exists.mp hrt
    simp [loadLoop, hcsv, hrt2]
  | cons p t ih =>
    intro hpre
    obtain ⟨pname, pres⟩ := p
    by_cases hc : strEndsWith (lowerStr pname) ".csv" = true
    · cases hr : fileRoute (lowerStr pname) with
      | none =>
        simp only [List.cons_append, loadLoop, hc, if_true, hr]
        exact ih acc fun q hq => hpre q (List.mem_cons_of_mem _ hq)
      | some rt =>
        rcases hpre (pname, pres) (List.mem_cons_self _ _) with ⟨tt, hok⟩ | hbad
        · simp only at hok
          subst hok
          simp only [List.cons_append, loadLoop, hc, if_true, hr]
          exact ih (setRoute acc rt tt) fun q hq =>
            hpre q (List.mem_cons_of_mem _ hq)
        · exact absurd ⟨hc, by rw [hr]; rfl⟩ hbad
    · simp only [List.cons_append, loadLoop, hc, if_false]
      exact ih acc fun q hq => hpre q (List.mem_cons_of_mem _ hq)

/-- Witness for the amended C4 at the concrete two-file directory. -/
theorem c4_amended_witness :
    matchedCsv "google.csv" ∧
      loadLoop emptyDataFiles
          ([("facebook.csv", Except.ok dfEmptyDF)] ++
            ("google.csv", Except.error "bad file") :: []) =
        ((loadLoop emptyDataFiles [("facebook.csv", Except.ok dfEmptyDF)]).1,
          some ("Error loading files: " ++ "bad file")) :=
  ⟨by decide,
    c4_amended emptyDataFiles [("facebook.csv", Except.ok dfEmptyDF)]
      "google.csv" "bad file" []
      (fun p hp => by
        have hp2 := List.mem_singleton.mp hp
        subst hp2
        exact Or.inl ⟨dfEmptyDF, rfl⟩)
      (by decide)⟩

/-! ### C5 (corrected): the spend sort is descending but anti-stable -/

/-- The concrete channel summaries of the equal-spend table `dataC5`, in
group (ascending channel-key) order. -/
theorem channelSummaries_dataC5 :
    channelSummaries dataC5 = [sumAlpha, sumBeta] := by
  have hk : chanKeys
      (dataC5.filter fun r => decide (r.channel ≠ ChannelVal.str "Total")) =
      [ChannelVal.str "Alpha", ChannelVal.str "Beta"] := by decide
  have g1 : chanGroup
      (dataC5.filter fun r => decide (r.channel ≠ ChannelVal.str "Total"))
      (ChannelVal.str "Alpha") =
      [mkFRow 0 (ChannelVal.str "Alpha") 0 0 10 10 0] := by decide
  have g2 : chanGroup
      (dataC5.filter fun r => decide (r.channel ≠ ChannelVal.str "Total"))
      (ChannelVal.str "Beta") =
      [mkFRow 0 (ChannelVal.str "Beta") 0 0 10 20 0] := by decide
  simp only [channelSummaries]
  rw [hk, List.map_cons, List.map_cons, List.map_nil, g1, g2]
  norm_num [mkFRow, sumAlpha, sumBeta, deriveRoas, deriveCtr, deriveCpc,
    deriveCpm]

/-- Counterexample to C5 as stated: in `dataC5` the two channels have
equal spend and enter in group order Alpha, Beta, yet the performance
table returns them as Beta, Alpha — equal-spend rows do not keep their
input order. -/
theorem c5_counterexample :
    ((channelSummaries dataC5).map fun r => r.channel) =
        [ChannelVal.str "Alpha", ChannelVal.str "Beta"] ∧
      sumAlpha.spend = sumBeta.spend ∧
      ((calculate_channel_performance dataC5).map fun r => r.channel) =
        [ChannelVal.str "Beta", ChannelVal.str "Alpha"] := by
  have hs : calculate_channel_performance dataC5 = [sumBeta, sumAlpha] := by
    rw [calculate_channel_performance, channelSummaries_dataC5]
    norm_num [sortValuesSpendDesc, List.insertionSort, List.orderedInsert,
      spendLe, sumAlpha, sumBeta]
  refine ⟨?_, ?_, ?_⟩
  · rw [channelSummaries_dataC5]; decide
  · norm_num [sumAlpha, sumBeta]
  · rw [hs]; decide

/-- C5 as amended: the performance rows are sorted by total spend
descending, but rows of equal spend appear in the reverse of their group
order — pandas realizes `ascending=False` by reversing the stable
ascending argsort, so the claimed stability fails and is replaced by
anti-stability. -/
theorem c5_amended (data : List FRow) : C5Prop data := by
  unfold C5Prop
  constructor
  · unfold calculate_channel_performance sortValuesSpendDesc
    exact List.pairwise_reverse.mpr
      (List.sorted_insertionSort spendLe (channelSummaries data))
  · intro a b hab hspend
    have h1 : spendLe a b := le_of_eq hspend
    have h2 := List.pair_sublist_insertionSort h1 hab
    simpa [calculate_channel_performance, sortValuesSpendDesc] using
      h2.reverse

/-- Witness for the amended C5 at the concrete equal-spend table. -/
theorem c5_amended_witness :
    List.Sublist [sumAlpha, sumBeta] (channelSummaries dataC5) ∧
      sumAlpha.spend = sumBeta.spend ∧
      List.Sublist [sumBeta, sumAlpha]
        (calculate_channel_performance dataC5) := by
  have h1 : List.Sublist [sumAlpha, sumBeta] (channelSummaries dataC5) := by
    rw [channelSummaries_dataC5]
  have h2 : sumAlpha.spend = sumBeta.spend := by norm_num [sumAlpha, sumBeta]
  exact ⟨h1, h2, (c5_amended dataC5).2 sumAlpha sumBeta h1 h2⟩

/-! ### C6 (code bug): TopPerformer names the top-spend channel, not the
top-ROAS channel -/

/-- The concrete channel summaries of `dataC6`, in group order. -/
theorem channelSummaries_dataC6 :
    channelSummaries dataC6 = [sumA6, sumB6] := by
  have hk : chanKeys
      (dataC6.filter fun r => decide (r.channel ≠ ChannelVal.str "Total")) =
      [ChannelVal.str "Alpha", ChannelVal.str "Beta"] := by decide
  have g1 : chanGroup
      (dataC6.filter fun r => decide (r.channel ≠ ChannelVal.str "Total"))
      (ChannelVal.str "Alpha") =
      [mkFRow 0 (ChannelVal.str "Alpha") 1000 10 100 100 0] := by decide
  have g2 : chanGroup
      (dataC6.filter fun r => decide (r.channel ≠ ChannelVal.str "Total"))
      (ChannelVal.str "Beta") =
      [mkFRow 0 (ChannelVal.str "Beta") 1000 10 10 50 0] := by decide
  simp only [channelSummaries]
  rw [hk, List.map_cons, List.map_cons, List.map_nil, g1, g2]
  norm_num [mkFRow, sumA6, sumB6, deriveRoas, deriveCtr, deriveCpc,
    deriveCpm]

/-- C6, evaluated at the failing input `dataC6`: the first insight is the
TopPerformer record, but it names Alpha — `channel_perf.iloc[0]`, the
highest-spend channel, with ROAS 1 — even though Beta holds the highest
ROAS, 5.  The rule reads the first row of the spend-descending summary
while its own message claims that channel "delivers the highest ROAS":
the claim (and the message) state the intent, the lookup is the slip. -/
theorem c6_top_performer_names_top_spend :
    (get_performance_insights dataC6).head? =
        some ⟨InsightType.topPerformer, InsightPriority.high,
          [ChannelVal.str "Alpha"], [1, 100, 20]⟩ ∧
      ((calculate_channel_performance dataC6).map
          fun r => (r.channel, r.roas)) =
        [(ChannelVal.str "Alpha", 1), (ChannelVal.str "Beta", 5)] := by
  have hperf : calculate_channel_performance dataC6 = [sumA6, sumB6] := by
    rw [calculate_channel_performance, channelSummaries_dataC6]
    norm_num [sortValuesSpendDesc, List.insertionSort, List.orderedInsert,
      spendLe, sumA6, sumB6]
  constructor
  · simp only [get_performance_insights, hperf]
    norm_num [sumA6, List.take, sumB6]
  · rw [hperf]; decide

/-! ### C2 (confirmed): ratio-of-sums for Total, mean-of-ratios per
channel -/

theorem groupKeys_nodup (rows : List MRowM) : (groupKeys rows).Nodup :=
  (List.perm_insertionSort keyLe _).nodup_iff.mpr (List.nodup_dedup _)

theorem dateKeys_nodup (rows : List MRowM) : (dateKeys rows).Nodup :=
  (List.perm_insertionSort _ _).nodup_iff.mpr (List.nodup_dedup _)

theorem mem_groupKeys {rows : List MRowM} {k : Nat × String} :
    k ∈ groupKeys rows ↔ k ∈ rows.map fun r => (r.date, r.channel) :=
  (List.mem_insertionSort _).trans List.mem_dedup

theorem mem_dateKeys {rows : List MRowM} {d : Nat} :
    d ∈ dateKeys rows ↔ d ∈ rows.map fun r => r.date :=
  (List.mem_insertionSort _).trans List.mem_dedup

/-- C2: for every date of the input, the aggregated table carries exactly
one `Total` row holding the ratio-of-sums ROAS (0 when the summed spend is
0), and for every (date, channel) group exactly one row holding the sums
of the raw columns and the arithmetic means of the per-row ratios.  The
hypotheses say the input is the pre-aggregation marketing table: no row is
already labelled `Total`, and spend is non-negative. -/
theorem c2_aggregate_daily_marketing (rows : List MRowM)
    (hT : ∀ r ∈ rows, r.channel ≠ "Total")
    (hs : ∀ r ∈ rows, 0 ≤ r.spend)
    (d : Nat) (hd : d ∈ rows.map fun r => r.date) : C2Prop rows d := by
  unfold C2Prop aggregate_daily_marketing
  have hchan : ∀ k ∈ groupKeys rows, k.2 ≠ "Total" := by
    intro k hk
    obtain ⟨r, hr, hrk⟩ := List.mem_map.mp (mem_groupKeys.mp hk)
    rw [← hrk]
    exact hT r hr
  refine ⟨?_, rfl, rfl, rfl, rfl, ?_, ?_⟩
  · -- exactly one Total row for d
    rw [List.filter_append]
    have h1 : ((groupKeys rows).map (aggChannelRow rows)).filter
        (fun r => decide (r.date = d ∧ r.channel = "Total")) = [] := by
      refine List.filter_eq_nil_iff.mpr fun x hx => ?_
      obtain ⟨k, hk, rfl⟩ := List.mem_map.mp hx
      simp only [decide_eq_true_eq, aggChannelRow_channel, aggChannelRow_date,
        not_and]
      intro _
      exact hchan k hk
    have h2 : ((dateKeys rows).map (aggTotalRow rows)).filter
        (fun r => decide (r.date = d ∧ r.channel = "Total")) =
        [aggTotalRow rows d] := by
      rw [List.filter_map]
      have hcongr : (dateKeys rows).filter
          ((fun r => decide (r.date = d ∧ r.channel = "Total")) ∘
            aggTotalRow rows) =
          (dateKeys rows).filter (fun x => decide ((fun y => y) x = d)) := by
        refine List.filter_congr fun a _ => ?_
        simp [aggTotalRow_date, aggTotalRow_channel, Function.comp]
      rw [hcongr]
      obtain ⟨b, _, hbd, hfil⟩ := filter_key_singleton (fun y => y)
        (by simpa using dateKeys_nodup rows)
        (by simpa using mem_dateKeys.mpr hd)
      rw [hfil, hbd]
      simp
    rw [h1, h2, List.nil_append]
  · -- ratio of sums with the zero-spend guard
    have hnn : 0 ≤ ((dateRows rows d).map fun r => r.spend).sum := by
      refine List.sum_nonneg fun x hx => ?_
      obtain ⟨r, hr, rfl⟩ := List.mem_map.mp hx
      exact hs r (List.mem_of_mem_filter hr)
    by_cases hz : ((dateRows rows d).map fun r => r.spend).sum = 0
    · have : (aggTotalRow rows d).roas = 0 := by
        show deriveRoas _ _ = 0
        rw [deriveRoas, if_neg]
        rw [hz]
        exact lt_irrefl 0
      rw [this, if_pos hz]
    · have hpos : 0 < ((dateRows rows d).map fun r => r.spend).sum :=
        lt_of_le_of_ne hnn (Ne.symm hz)
      have : (aggTotalRow rows d).roas =
          ((dateRows rows d).map fun r => r.revenue).sum /
            ((dateRows rows d).map fun r => r.spend).sum := by
        show deriveRoas _ _ = _
        rw [deriveRoas, if_pos hpos]
      rw [this, if_neg hz]
  · -- exactly one row per (date, channel) group, sums and means
    intro c hkc
    have hcT : c ≠ "Total" := by
      obtain ⟨r, hr, hrk⟩ := List.mem_map.mp hkc
      have : r.channel = c := congrArg Prod.snd hrk
      rw [← this]
      exact hT r hr
    refine ⟨?_, rfl, rfl, rfl, rfl, rfl, rfl, rfl, rfl⟩
    rw [List.filter_append]
    have h2 : ((dateKeys rows).map (aggTotalRow rows)).filter
        (fun r => decide (r.date = d ∧ r.channel = c)) = [] := by
      refine List.filter_eq_nil_iff.mpr fun x hx => ?_
      obtain ⟨d0, _, rfl⟩ := List.mem_map.mp hx
      simp only [decide_eq_true_eq, aggTotalRow_date, aggTotalRow_channel,
        not_and]
      intro _ h
      exact hcT h.symm
    have h1 : ((groupKeys rows).map (aggChannelRow rows)).filter
        (fun r => decide (r.date = d ∧ r.channel = c)) =
        [aggChannelRow rows (d, c)] := by
      rw [List.filter_map]
      have hcongr : (groupKeys rows).filter
          ((fun r => decide (r.date = d ∧ r.channel = c)) ∘
            aggChannelRow rows) =
          (groupKeys rows).filter (fun k => decide ((fun y => y) k = (d, c))) := by
        refine List.filter_congr fun a _ => ?_
        simp only [Function.comp, aggChannelRow_date, aggChannelRow_channel,
          decide_eq_decide, Prod.ext_iff]
      rw [hcongr]
      obtain ⟨b, _, hbd, hfil⟩ := filter_key_singleton (fun y => y)
        (by simpa using groupKeys_nodup rows)
        (by simpa using mem_groupKeys.mpr hkc)
      rw [hfil, hbd]
      rfl
    rw [h1, h2, List.append_nil]

/-- Witness for C2 at a three-row, one-date table with two Facebook rows
and one Google row. -/
theorem c2_aggregate_daily_marketing_witness :
    (∀ r ∈ rowsC2, r.channel ≠ "Total") ∧ C2Prop rowsC2 1 :=
  ⟨by decide,
    c2_aggregate_daily_marketing rowsC2 (by decide) (by decide) 1 (by decide)⟩

/-! ### C10 (confirmed): business-only dates get a numeric-0 channel row -/

theorem mergedRow_date (m : MRowM) (b : BRow) : (mergedRow m b).date = m.date :=
  rfl

theorem marketingOnlyRow_date (m : MRowM) :
    (marketingOnlyRow m).date = m.date := rfl

theorem businessOnlyRow_date (b : BRow) : (businessOnlyRow b).date = b.date :=
  rfl

/-- C10: for every date of the (duplicate-free) cleaned business table
that is absent from the aggregated marketing table, the merged output
holds exactly one row of that date; its channel cell is the number 0 —
neither a channel name nor the `Total` label — and all eight marketing
columns are 0. -/
theorem c10_merge_business_only_dates (md : List MRowM) (bz : List BRow)
    (hnd : (bz.map fun b => b.date).Nodup)
    (d : Nat) (hdb : d ∈ bz.map fun b => b.date)
    (hdm : d ∉ md.map fun m => m.date) :
    ∃ b ∈ bz, b.date = d ∧
      (mergeFillSort md bz).filter (fun r => decide (r.date = d)) =
        [businessOnlyRow b] ∧
      (businessOnlyRow b).channel = ChannelVal.num 0 ∧
      (∀ s, (businessOnlyRow b).channel ≠ ChannelVal.str s) ∧
      (businessOnlyRow b).impressions = 0 ∧ (businessOnlyRow b).clicks = 0 ∧
      (businessOnlyRow b).spend = 0 ∧ (businessOnlyRow b).revenue = 0 ∧
      (businessOnlyRow b).ctr = 0 ∧ (businessOnlyRow b).cpc = 0 ∧
      (businessOnlyRow b).roas = 0 ∧ (businessOnlyRow b).cpm = 0 := by
  obtain ⟨b, hb, hbd, hfil⟩ :=
    filter_key_singleton (fun b : BRow => b.date) hnd hdb
  refine ⟨b, hb, hbd, ?_, rfl, fun s h => ChannelVal.noConfusion h, rfl, rfl,
    rfl, rfl, rfl, rfl, rfl, rfl⟩
  have hL : (md.flatMap fun m =>
      let hits := bz.filter fun bb => decide (bb.date = m.date)
      if hits.isEmpty then [marketingOnlyRow m]
      else hits.map (mergedRow m)).filter
        (fun r => decide (r.date = d)) = [] := by
    refine List.filter_eq_nil_iff.mpr fun x hx => ?_
    obtain ⟨m, hm, hxm⟩ := List.mem_flatMap.mp hx
    have hmd : m.date ≠ d := fun h => hdm (h ▸ List.mem_map_of_mem _ hm)
    simp only [decide_eq_true_eq]
    by_cases hcase : (bz.filter fun bb => decide (bb.date = m.date)).isEmpty
    · simp only [if_pos hcase] at hxm
      have hxe : x = marketingOnlyRow m := by simpa using hxm
      rw [hxe, marketingOnlyRow_date]
      exact hmd
    · simp only [if_neg hcase] at hxm
      obtain ⟨bb, _, rfl⟩ := List.mem_map.mp hxm
      rw [mergedRow_date]
      exact hmd
  have hR : ((bz.filter fun bb =>
      decide (¬ ∃ m ∈ md, m.date = bb.date)).map businessOnlyRow).filter
        (fun r => decide (r.date = d)) = [businessOnlyRow b] := by
    rw [List.filter_map, List.filter_filter]
    have hcongr : bz.filter
        (fun a => ((fun r => decide (r.date = d)) ∘ businessOnlyRow) a &&
          (fun bb => decide (¬ ∃ m ∈ md, m.date = bb.date)) a) =
        bz.filter (fun x => decide ((fun bb : BRow => bb.date) x = d)) := by
      refine List.filter_congr fun a _ => ?_
      by_cases had : a.date = d
      · have hq : decide (¬ ∃ m ∈ md, m.date = d) = true := by
          simp only [decide_eq_true_eq]
          rintro ⟨m, hm, hmd2⟩
          exact hdm (hmd2 ▸ List.mem_map_of_mem _ hm)
        simp only [Function.comp, businessOnlyRow_date, had]
        rw [hq]
        simp
      · simp [Function.comp, businessOnlyRow_date, had]
    rw [hcongr, hfil]
    rfl
  have hperm := (List.perm_insertionSort frowLe
      ((md.flatMap fun m =>
        let hits := bz.filter fun bb => decide (bb.date = m.date)
        if hits.isEmpty then [marketingOnlyRow m]
        else hits.map (mergedRow m)) ++
       (bz.filter fun bb =>
        decide (¬ ∃ m ∈ md, m.date = bb.date)).map businessOnlyRow)).filter
    (fun r : FRow => decide (r.date = d))
  rw [List.filter_append, hL, hR, List.nil_append] at hperm
  exact List.perm_singleton.mp hperm

/-- Witness for C10 at an empty marketing table and a one-row business
table. -/
theorem c10_merge_business_only_dates_witness :
    ((List.map (fun b : BRow => b.date) [bW]).Nodup) ∧
      (∃ b ∈ [bW], b.date = 7 ∧
        (mergeFillSort [] [bW]).filter (fun r => decide (r.date = 7)) =
          [businessOnlyRow b] ∧
        (businessOnlyRow b).channel = ChannelVal.num 0 ∧
        (∀ s, (businessOnlyRow b).channel ≠ ChannelVal.str s) ∧
        (businessOnlyRow b).impressions = 0 ∧ (businessOnlyRow b).clicks = 0 ∧
        (businessOnlyRow b).spend = 0 ∧ (businessOnlyRow b).revenue = 0 ∧
        (businessOnlyRow b).ctr = 0 ∧ (businessOnlyRow b).cpc = 0 ∧
        (businessOnlyRow b).roas = 0 ∧ (businessOnlyRow b).cpm = 0) :=
  ⟨by decide,
    c10_merge_business_only_dates [] [bW] (by decide) 7 (by decide)
      (by decide)⟩

end MarketPulse
